import Mathlib

/-!
Verification of the JAO ingress adapter (`ingress_adapter_jao/adapter.py`).

The development shallowly embeds the pieces of the adapter that the
specification talks about:

* calendar dates and the `relativedelta(months=+1)` month advance used by
  `JaoAdapter.retrieve_data`;
* UTC datetimes and Python's lexicographic datetime comparison, used by the
  polling-loop guard `monthly_datetime_obj < current_date`;
* the `CorridorState` checkpoint store (`get_last_successful_monthly_date`,
  `set_last_successful_monthly_date`, `__init__`);
* `JaoClient.get_auctions` (HTTP status handling);
* the corridor substring filter `JaoAdapter.__filter_corridors`;
* the monthly polling loop of `JaoAdapter.retrieve_data`, with an explicit
  fuel argument standing for the implicit unboundedness of the Python
  `while` loop, and an explicit trace of the issued auction fetches.

External effects (HTTP, the persistence sink) are passed in as oracles, so
every definition is executable.
-/

/-- A calendar date, as held by a Python `datetime` value (year, month, day).
Python's `datetime` keeps `1 <= month <= 12` and a day valid for the month;
`dateValid` captures that reachable domain. -/
structure Date where
  year : Nat
  month : Nat
  day : Nat
deriving DecidableEq, Repr

/-- Leap-year test of the Gregorian calendar (as used by Python's
`calendar`/`datetime` and by `dateutil.relativedelta` when clamping days). -/
def isLeapYear (y : Nat) : Bool :=
  (y % 4 == 0 && y % 100 != 0) || y % 400 == 0

/-- Number of days of month `m` of year `y` (months outside 1..12 are
unreachable for `datetime` values; the final branch is arbitrary). -/
def daysInMonth (y m : Nat) : Nat :=
  if m = 2 then (if isLeapYear y = true then 29 else 28)
  else if m = 4 ∨ m = 6 ∨ m = 9 ∨ m = 11 then 30
  else 31

/-- The day/month/day-range invariant that every Python `datetime` value
satisfies by construction. -/
def dateValid (d : Date) : Bool :=
  decide (1 ≤ d.month) && decide (d.month ≤ 12) &&
    decide (1 ≤ d.day) && decide (d.day ≤ daysInMonth d.year d.month)

/-- `monthly_datetime_obj += relativedelta(months=+1)` (adapter.py line 216):
advance by one calendar month, rolling over the year after December and
clamping the day to the last valid day of the target month. -/
def addMonth (d : Date) : Date :=
  if 12 ≤ d.month then
    { year := d.year + 1, month := 1, day := min d.day (daysInMonth (d.year + 1) 1) }
  else
    { year := d.year, month := d.month + 1, day := min d.day (daysInMonth d.year (d.month + 1)) }

/-- A UTC instant as compared by the loop guard: a date plus the microseconds
elapsed within that day.  `datetime.strptime(s, "%Y-%m-%d")` produces
`usecs = 0`; `datetime.utcnow()` produces the current time of day. -/
structure DateTime where
  date : Date
  usecs : Nat
deriving DecidableEq, Repr

/-- Python's `<` on dates: lexicographic on (year, month, day). -/
def dateLtB (a b : Date) : Bool :=
  decide (a.year < b.year) ||
    (decide (a.year = b.year) &&
      (decide (a.month < b.month) ||
        (decide (a.month = b.month) && decide (a.day < b.day))))

/-- Python's `<` on datetimes: lexicographic on (date, time-of-day).  This is
the comparison performed by `monthly_datetime_obj < current_date`. -/
def dtLtB (a b : DateTime) : Bool :=
  dateLtB a.date b.date || (decide (a.date = b.date) && decide (a.usecs < b.usecs))

/-- Left-pad the decimal numeral of `n` with zeros to width `w`; the behaviour
of `strftime` field directives such as `%m` (width 2) and `%Y` (width 4). -/
def zeroPad (w n : Nat) : String :=
  let s := Nat.repr n
  String.mk (List.replicate (w - s.length) '0') ++ s

/-- `monthly_datetime_obj.strftime("%Y-%m-%d")` (adapter.py line 207). -/
def formatDate (d : Date) : String :=
  zeroPad 4 d.year ++ "-" ++ zeroPad 2 d.month ++ "-" ++ zeroPad 2 d.day

/-- Split a character list on a separator, like Python's `str.split(sep)`:
`"2020-01-01".split("-") == ["2020", "01", "01"]`. -/
def splitOnChar (sep : Char) : List Char → List (List Char)
  | [] => [[]]
  | ch :: rest =>
    let r := splitOnChar sep rest
    if ch == sep then [] :: r
    else (ch :: r.headD []) :: r.tail

/-- Parse a decimal numeral, digit by digit. -/
def parseNatAux (acc : Nat) : List Char → Option Nat
  | [] => some acc
  | c :: rest =>
    if '0' ≤ c ∧ c ≤ '9' then parseNatAux (acc * 10 + (c.toNat - '0'.toNat)) rest
    else none

/-- Parse a non-empty all-digit string as a natural number. -/
def parseNatChars : List Char → Option Nat
  | [] => none
  | c :: rest => parseNatAux 0 (c :: rest)

/-- `datetime.strptime(s, "%Y-%m-%d")` (adapter.py line 204): split on the
dashes, read the numeric fields and validate them against the calendar;
`none` models the `ValueError` that `strptime` raises on malformed input. -/
def parseDate (s : String) : Option Date :=
  match (splitOnChar '-' s.toList).map parseNatChars with
  | [some y, some m, some d] =>
    if 1 ≤ m ∧ m ≤ 12 ∧ 1 ≤ d ∧ d ≤ daysInMonth y m then some { year := y, month := m, day := d }
    else none
  | _ => none

/-- The prefix of `s` before the first `'T'`: Python's `s.split('T')[0]`
(adapter.py lines 136 and 137). -/
def takeUntilT : List Char → List Char
  | [] => []
  | ch :: rest => if ch == 'T' then [] else ch :: takeUntilT rest

/-- `s.split('T')[0]` on strings. -/
def splitT (s : String) : String :=
  String.mk (takeUntilT s.toList)

/-- One record of the checkpoint store: a JSON object
`{'Corridor': ..., 'LastSuccessfulMonthlyDate': ...}`. -/
structure CRec where
  corridor : String
  lastDate : String
deriving DecidableEq, Repr

/-- `CorridorState.get_last_successful_monthly_date` (adapter.py lines
126-137): linear scan; the first record of the corridor wins and its stored
date is returned stripped of any time-of-day component; on a miss the
configured default value is returned, equally stripped. -/
def get_last_successful_monthly_date (st : List CRec) (defaultValue corridor : String) : String :=
  match st with
  | [] => splitT defaultValue
  | item :: rest =>
    if item.corridor == corridor then splitT item.lastDate
    else get_last_successful_monthly_date rest defaultValue corridor

/-- The same read, exposing the record list after the call.  The Python method
body contains no mutating statement, so the embedding returns the list it was
given; the pair makes the "must not mutate on miss" part of the contract a
statable property. -/
def getFullLSMD (st : List CRec) (defaultValue corridor : String) : String × List CRec :=
  (get_last_successful_monthly_date st defaultValue corridor, st)

/-- `CorridorState.set_last_successful_monthly_date` (adapter.py lines
139-150): linear scan; overwrite the date of the first record of the corridor
in place, or append a fresh record when the corridor has none. -/
def set_last_successful_monthly_date (st : List CRec) (corridor monthly_date : String) : List CRec :=
  match st with
  | [] => [{ corridor := corridor, lastDate := monthly_date }]
  | item :: rest =>
    if item.corridor == corridor then { corridor := item.corridor, lastDate := monthly_date } :: rest
    else item :: set_last_successful_monthly_date rest corridor monthly_date

/-- A decoded JSON value, as produced by `json.loads`. -/
inductive JVal where
  | null
  | bool (b : Bool)
  | num (n : Int)
  | str (s : String)
  | arr (xs : List JVal)
  | obj (kvs : List (String × JVal))

/-- Python truthiness of a decoded JSON value, as tested by `if auctions:`
(adapter.py line 211): `None`, `False`, `0`, and empty strings, lists and
dicts are falsy. -/
def JVal.truthy : JVal → Bool
  | .null => false
  | .bool b => b
  | .num n => decide (n ≠ 0)
  | .str s => !s.isEmpty
  | .arr xs => !xs.isEmpty
  | .obj kvs => !kvs.isEmpty

/-- Truthiness of the value held by `auctions` after
`self.client.get_auctions(...)`: `None` (the sentinel) is falsy, any other
value is tested as JSON. -/
def truthyOpt : Option JVal → Bool
  | none => false
  | some v => v.truthy

/-- An HTTP response as consumed by `JaoClient.get_auctions`: the status code
and the already-decoded JSON body (`json.loads(response.content)`). -/
structure HttpResponse where
  status_code : Nat
  content : JVal

/-- Python truthiness of an optional string argument (`if to_date:`):
`None` and the empty string are falsy. -/
def pyTruthyOptStr : Option String → Bool
  | none => false
  | some s => !s.isEmpty

/-- `JaoClient.get_auctions` (adapter.py lines 49-72).  `http` is the network
oracle giving the response of
`GET /getauctions?corridor&fromdate&horizon`.  A truthy `to_date` raises
(`Except.error`); otherwise a 200 response yields the decoded body and any
other status yields the sentinel `none` without raising, because a bad
response may simply mean no data is available for the period. -/
def get_auctions (http : String → String → HttpResponse) (corridor from_date : String)
    (to_date : Option String) : Except String (Option JVal) :=
  if pyTruthyOptStr to_date then Except.error ("to_date argument not used")
  else
    let response := http corridor from_date
    if response.status_code == 200 then Except.ok (some response.content)
    else Except.ok none

/-- Does `needle` occur at the head of `hay`? -/
def startsWithL : List Char → List Char → Bool
  | _, [] => true
  | [], _ :: _ => false
  | a :: as, b :: bs => a == b && startsWithL as bs

/-- Substring occurrence on character lists. -/
def containsL : List Char → List Char → Bool
  | [], needle => startsWithL [] needle
  | a :: rest, needle => startsWithL (a :: rest) needle || containsL rest needle

/-- Python's `needle in hay` on strings: substring containment. -/
def strIn (needle hay : String) : Bool :=
  containsL hay.toList needle.toList

/-- `JaoAdapter.__filter_corridors` (adapter.py lines 231-245): keep, in
order, the corridors containing at least one of the filter substrings (the
inner `for`/`break` appends each corridor at most once). -/
def filter_corridors (corridors filters : List String) : List String :=
  match corridors with
  | [] => []
  | corridor :: rest =>
    if filters.any (fun filter_item => strIn filter_item corridor) then
      corridor :: filter_corridors rest filters
    else filter_corridors rest filters

/-- One element of `all_corridor_actions` (adapter.py lines 212-213). -/
structure Batch where
  corridor : String
  from_date : String
  response : JVal

/-- One issued auctions fetch: the `(corridor, from-date)` arguments of a
`self.client.get_auctions` call made by the loop. -/
structure FetchCall where
  corridor : String
  from_date : String
deriving DecidableEq, Repr

/-- Year/month rank used to bound the number of loop iterations: strictly
increases on every `addMonth` step. -/
def capD (d : Date) : Nat :=
  d.year * 13 + min d.month 13

/-- Fuel sufficient for the monthly loop from `cursor` under snapshot `now`. -/
def monthFuel (now : DateTime) (cursor : Date) : Nat :=
  capD now.date + 1 - capD cursor

/-- `n`-fold iteration of the one-month cursor advance. -/
def addMonthIter : Nat → Date → Date
  | 0, d => d
  | n + 1, d => addMonth (addMonthIter n d)

/-- The inner `while monthly_datetime_obj < current_date` loop of
`JaoAdapter.retrieve_data` (adapter.py lines 206-216) for one corridor.
`fetchA corridor ds` is the value returned by
`self.client.get_auctions(corridor, ds)` (`none` being the sentinel for a
non-200 response); `now` is the `datetime.utcnow()` snapshot taken at line
194, `acc` is `all_corridor_actions`, `st` the checkpoint records and `calls`
the trace of issued fetches.  The fuel only bounds the iteration count
(`processMonths_some` shows `monthFuel` always suffices, so the `none` case
of exhausted fuel is unreachable in `processCorridors`). -/
def processMonths (fetchA : String → String → Option JVal) (now : DateTime) (corridor : String) :
    Nat → Date → List Batch → List CRec → List FetchCall →
      Option (List Batch × List CRec × List FetchCall)
  | 0, cursor, acc, st, calls =>
    if dtLtB { date := cursor, usecs := 0 } now then none
    else some (acc, st, calls)
  | fuel + 1, cursor, acc, st, calls =>
    if dtLtB { date := cursor, usecs := 0 } now then
      match fetchA corridor (formatDate cursor) with
      | some v =>
        if v.truthy then
          processMonths fetchA now corridor fuel (addMonth cursor)
            (acc ++ [{ corridor := corridor, from_date := formatDate cursor, response := v }])
            (set_last_successful_monthly_date st corridor (formatDate cursor))
            (calls ++ [{ corridor := corridor, from_date := formatDate cursor }])
        else
          processMonths fetchA now corridor fuel (addMonth cursor) acc st
            (calls ++ [{ corridor := corridor, from_date := formatDate cursor }])
      | none =>
        processMonths fetchA now corridor fuel (addMonth cursor) acc st
          (calls ++ [{ corridor := corridor, from_date := formatDate cursor }])
    else some (acc, st, calls)

/-- The outer `for corridor in corridors` loop of `JaoAdapter.retrieve_data`
(adapter.py lines 202-216): read the checkpoint, parse it (`none` models the
`ValueError` of `strptime` on a malformed stored date), and run the monthly
loop, threading the accumulated batches, checkpoint records and fetch
trace. -/
def processCorridors (fetchA : String → String → Option JVal) (now : DateTime)
    (defaultValue : String) :
    List String → List Batch → List CRec → List FetchCall →
      Option (List Batch × List CRec × List FetchCall)
  | [], acc, st, calls => some (acc, st, calls)
  | corridor :: rest, acc, st, calls =>
    match parseDate (get_last_successful_monthly_date st defaultValue corridor) with
    | none => none
    | some cursor =>
      match processMonths fetchA now corridor (monthFuel now cursor) cursor acc st calls with
      | none => none
      | some (acc', st', calls') => processCorridors fetchA now defaultValue rest acc' st' calls'

/-- `JaoAdapter.retrieve_data` (adapter.py lines 187-219) after the corridor
list has been fetched and its `value` fields extracted: filter the corridor
universe by the fixed region substrings and run the polling loop over the
result, starting from empty accumulators. -/
def retrieve_data (fetchA : String → String → Option JVal) (now : DateTime)
    (defaultValue : String) (corridorsAll : List String) (st : List CRec) :
    Option (List Batch × List CRec × List FetchCall) :=
  processCorridors fetchA now defaultValue
    (filter_corridors corridorsAll ["DK", "D1", "D2"]) [] st []

/-- `c` occurs nowhere in the key list. -/
def keyFree (c : String) : List String → Bool
  | [] => true
  | k :: ks => !(k == c) && keyFree c ks

/-- Keys of a record list are pairwise distinct. -/
def uniqueKeys : List String → Bool
  | [] => true
  | k :: ks => keyFree k ks && uniqueKeys ks

/-- At most one checkpoint record per corridor. -/
def uniqueCorridors (st : List CRec) : Bool :=
  uniqueKeys (st.map CRec.corridor)

/-- Lookup in the decoded checkpoint JSON document: Python's
`json_content[horizon]`, with `none` modelling a `KeyError`. -/
def dictGet (doc : List (String × List CRec)) (k : String) : Option (List CRec) :=
  match doc with
  | [] => none
  | (k2, v) :: rest => if k2 == k then some v else dictGet rest k

/-- The fields of a constructed `CorridorState`. -/
structure CState where
  state : List CRec
  horizon : String
  default_value : String
deriving DecidableEq, Repr

/-- `CorridorState.__init__` (adapter.py lines 113-121).  `doc` is the
document the persistence sink would return from `ingress.retrieve_state()`.
The returned flag records whether `retrieve_state` was actually invoked: the
`ValueError` on an invalid horizon is raised before the state is loaded, so
the flag is `false` there. -/
def corridorState_init (doc : List (String × List CRec)) (horizon default_date : String) :
    Except String CState × Bool :=
  if !(horizon == "Yearly" || horizon == "Monthly") then
    (Except.error ("Horizon not valid value: Valid values are Yearly and Monthly"), false)
  else
    match dictGet doc horizon with
    | some st =>
      (Except.ok { state := st, horizon := horizon, default_value := default_date }, true)
    | none => (Except.error ("KeyError"), true)

/-- A network oracle on which every auctions fetch succeeds with a (truthy)
payload. -/
def fetchData : String → String → Option JVal :=
  fun _ _ => some (JVal.str ("data"))

/-- The run-start snapshot 2020-03-15 00:00:00 UTC. -/
def now320 : DateTime :=
  { date := { year := 2020, month := 3, day := 15 }, usecs := 0 }

/-- The run-start snapshot 2020-03-15 12:00:00 UTC. -/
def nowNoon315 : DateTime :=
  { date := { year := 2020, month := 3, day := 15 }, usecs := 43200000000 }

/-- A network oracle on which every auctions fetch yields the no-data
sentinel (a non-200 response). -/
def fetchNone : String → String → Option JVal :=
  fun _ _ => none

/-- An HTTP oracle that always answers 200 with a JSON body. -/
def httpOk : String → String → HttpResponse :=
  fun _ _ => { status_code := 200, content := JVal.str ("payload") }

/-- An HTTP oracle that always answers 400. -/
def httpBad : String → String → HttpResponse :=
  fun _ _ => { status_code := 400, content := JVal.obj [("status", JVal.num 400)] }

/-- A concrete checkpoint document with both horizon keys. -/
def doc0 : List (String × List CRec) :=
  [("Yearly", []), ("Monthly", [{ corridor := "DK1-DE", lastDate := "2020-01-01" }])]

theorem one_le_daysInMonth (y m : Nat) : 1 ≤ daysInMonth y m := by
  unfold daysInMonth
  split
  · split <;> omega
  · split <;> omega

theorem get_after_set (st : List CRec) (c d defv : String) :
    get_last_successful_monthly_date (set_last_successful_monthly_date st c d) defv c
      = splitT d := by
  induction st with
  | nil => simp [set_last_successful_monthly_date, get_last_successful_monthly_date]
  | cons item rest ih =>
    by_cases h : item.corridor = c
    · simp [set_last_successful_monthly_date, get_last_successful_monthly_date, h]
    · simp [set_last_successful_monthly_date, get_last_successful_monthly_date, h, ih]

theorem set_length_or (st : List CRec) (c d : String) :
    (set_last_successful_monthly_date st c d).length = st.length ∨
      (set_last_successful_monthly_date st c d).length = st.length + 1 := by
  induction st with
  | nil => simp [set_last_successful_monthly_date]
  | cons item rest ih =>
    by_cases h : item.corridor = c
    · simp [set_last_successful_monthly_date, h]
    · simp only [set_last_successful_monthly_date]
      rw [if_neg (by simp [h])]
      rcases ih with ih | ih <;> simp [ih]

theorem set_idem (st : List CRec) (c d : String) :
    set_last_successful_monthly_date (set_last_successful_monthly_date st c d) c d
      = set_last_successful_monthly_date st c d := by
  induction st with
  | nil => simp [set_last_successful_monthly_date]
  | cons item rest ih =>
    by_cases h : item.corridor = c
    · simp [set_last_successful_monthly_date, h]
    · simp [set_last_successful_monthly_date, h, ih]

theorem get_of_absent (st : List CRec) (c defv : String)
    (h : ∀ r ∈ st, r.corridor ≠ c) :
    get_last_successful_monthly_date st defv c = splitT defv := by
  induction st with
  | nil => simp [get_last_successful_monthly_date]
  | cons item rest ih =>
    have hitem : item.corridor ≠ c := h item (by simp)
    simp only [get_last_successful_monthly_date]
    rw [if_neg (by simp [hitem])]
    exact ih (fun r hr => h r (by simp [hr]))

theorem get_of_first_hit (pre : List CRec) (r : CRec) (post : List CRec) (c defv : String)
    (hr : r.corridor = c) (hpre : ∀ x ∈ pre, x.corridor ≠ c) :
    get_last_successful_monthly_date (pre ++ r :: post) defv c = splitT r.lastDate := by
  induction pre with
  | nil => simp [get_last_successful_monthly_date, hr]
  | cons x rest ih =>
    have hx : x.corridor ≠ c := hpre x (by simp)
    simp only [List.cons_append, get_last_successful_monthly_date]
    rw [if_neg (by simp [hx])]
    exact ih (fun y hy => hpre y (by simp [hy]))

/-- C4: after `set_last_successful_monthly_date(c, d)` with `d` a plain date
(no time-of-day component), an immediate
`get_last_successful_monthly_date(c)` returns `d`; the record count grows by
at most one; and repeating the same `set` leaves the record list unchanged. -/
theorem C4_set_then_get (st : List CRec) (c d defv : String) (hd : splitT d = d) :
    get_last_successful_monthly_date (set_last_successful_monthly_date st c d) defv c = d
    ∧ ((set_last_successful_monthly_date st c d).length = st.length ∨
       (set_last_successful_monthly_date st c d).length = st.length + 1)
    ∧ set_last_successful_monthly_date (set_last_successful_monthly_date st c d) c d
        = set_last_successful_monthly_date st c d := by
  refine ⟨?_, set_length_or st c d, set_idem st c d⟩
  rw [get_after_set, hd]

theorem C4_witness :
    splitT "2020-02-01" = "2020-02-01"
    ∧ (get_last_successful_monthly_date
        (set_last_successful_monthly_date
          [{ corridor := "DK1-DE", lastDate := "2020-01-01" }] "DK1-DE" "2020-02-01")
        "2019-01-01" "DK1-DE" = "2020-02-01"
      ∧ ((set_last_successful_monthly_date
            [{ corridor := "DK1-DE", lastDate := "2020-01-01" }] "DK1-DE" "2020-02-01").length
          = [({ corridor := "DK1-DE", lastDate := "2020-01-01" } : CRec)].length ∨
         (set_last_successful_monthly_date
            [{ corridor := "DK1-DE", lastDate := "2020-01-01" }] "DK1-DE" "2020-02-01").length
          = [({ corridor := "DK1-DE", lastDate := "2020-01-01" } : CRec)].length + 1)
      ∧ set_last_successful_monthly_date
          (set_last_successful_monthly_date
            [{ corridor := "DK1-DE", lastDate := "2020-01-01" }] "DK1-DE" "2020-02-01")
          "DK1-DE" "2020-02-01"
        = set_last_successful_monthly_date
            [{ corridor := "DK1-DE", lastDate := "2020-01-01" }] "DK1-DE" "2020-02-01") :=
  ⟨by decide,
   C4_set_then_get [{ corridor := "DK1-DE", lastDate := "2020-01-01" }]
     "DK1-DE" "2020-02-01" "2019-01-01" (by decide)⟩

/-- C5: a `get_last_successful_monthly_date` miss returns the configured
default date (itself free of a time-of-day component) and leaves the record
list unchanged; a hit returns the first matching record's stored date
stripped of the part after `'T'`. -/
theorem C5_get_default_or_stored (st : List CRec) (c defv : String) (hdef : splitT defv = defv) :
    ((∀ r ∈ st, r.corridor ≠ c) → getFullLSMD st defv c = (defv, st))
    ∧ (∀ pre r post, st = pre ++ r :: post → r.corridor = c → (∀ x ∈ pre, x.corridor ≠ c) →
        (getFullLSMD st defv c).1 = splitT r.lastDate) := by
  constructor
  · intro h
    simp only [getFullLSMD, Prod.mk.injEq]
    exact ⟨by rw [get_of_absent st c defv h, hdef], trivial⟩
  · intro pre r post hst hr hpre
    simp only [getFullLSMD, hst]
    exact get_of_first_hit pre r post c defv hr hpre

theorem C5_witness :
    splitT "2020-01-01" = "2020-01-01"
    ∧ getFullLSMD [{ corridor := "NO2-DE", lastDate := "2021-05-01T00:00" }] "2020-01-01" "DK1-DE"
        = ("2020-01-01", [{ corridor := "NO2-DE", lastDate := "2021-05-01T00:00" }])
    ∧ (getFullLSMD [{ corridor := "NO2-DE", lastDate := "2021-05-01T00:00" }] "2020-01-01" "NO2-DE").1
        = "2021-05-01" :=
  ⟨by decide,
   (C5_get_default_or_stored [{ corridor := "NO2-DE", lastDate := "2021-05-01T00:00" }]
       "DK1-DE" "2020-01-01" (by decide)).1 (by decide),
   (C5_get_default_or_stored [{ corridor := "NO2-DE", lastDate := "2021-05-01T00:00" }]
       "NO2-DE" "2020-01-01" (by decide)).2
     [] { corridor := "NO2-DE", lastDate := "2021-05-01T00:00" } [] rfl rfl (by simp)⟩

/-- C7: `get_auctions` (called without a `to_date`, as the polling loop calls
it) returns the decoded JSON body when the HTTP status is 200 and returns the
sentinel `none` without raising on any other status. -/
theorem C7_get_auctions_status (http : String → String → HttpResponse)
    (corridor from_date : String) :
    ((http corridor from_date).status_code = 200 →
      get_auctions http corridor from_date none
        = Except.ok (some (http corridor from_date).content))
    ∧ ((http corridor from_date).status_code ≠ 200 →
      get_auctions http corridor from_date none = Except.ok none) := by
  constructor <;> intro h <;> simp [get_auctions, pyTruthyOptStr, h]

theorem C7_witness :
    ((httpOk "DK1-DE" "2020-01-01").status_code = 200
      ∧ get_auctions httpOk "DK1-DE" "2020-01-01" none
          = Except.ok (some (httpOk "DK1-DE" "2020-01-01").content))
    ∧ ((httpBad "DK1-DE" "2020-01-01").status_code ≠ 200
      ∧ get_auctions httpBad "DK1-DE" "2020-01-01" none = Except.ok none) :=
  ⟨⟨rfl, (C7_get_auctions_status httpOk "DK1-DE" "2020-01-01").1 rfl⟩,
   ⟨by decide, (C7_get_auctions_status httpBad "DK1-DE" "2020-01-01").2 (by decide)⟩⟩

/-- C10: constructing a `CorridorState` with a horizon other than `"Yearly"`
or `"Monthly"` raises the `ValueError` before `retrieve_state` is consulted
(the flag is `false`); with either valid horizon the sub-document stored
under that key becomes the working record list. -/
theorem C10_init_horizon (doc : List (String × List CRec)) (horizon default_date : String) :
    (horizon ≠ "Yearly" → horizon ≠ "Monthly" →
      corridorState_init doc horizon default_date
        = (Except.error ("Horizon not valid value: Valid values are Yearly and Monthly"), false))
    ∧ (∀ st, (horizon = "Yearly" ∨ horizon = "Monthly") → dictGet doc horizon = some st →
      corridorState_init doc horizon default_date
        = (Except.ok { state := st, horizon := horizon, default_value := default_date }, true)) := by
  constructor
  · intro h1 h2
    simp [corridorState_init, h1, h2]
  · intro st hor hlook
    rcases hor with h | h <;> subst h <;> simp [corridorState_init, hlook]

theorem C10_witness :
    (("Monthly" : String) = "Yearly" ∨ ("Monthly" : String) = "Monthly")
    ∧ dictGet doc0 "Monthly" = some [{ corridor := "DK1-DE", lastDate := "2020-01-01" }]
    ∧ corridorState_init doc0 "Monthly" "2019-01-01"
        = (Except.ok { state := [{ corridor := "DK1-DE", lastDate := "2020-01-01" }],
                       horizon := "Monthly", default_value := "2019-01-01" }, true) :=
  ⟨Or.inr rfl, by decide,
   (C10_init_horizon doc0 "Monthly" "2019-01-01").2
     [{ corridor := "DK1-DE", lastDate := "2020-01-01" }] (Or.inr rfl) (by decide)⟩

theorem dtLtB_eq_true_iff (a b : DateTime) :
    dtLtB a b = true ↔
      (a.date.year < b.date.year
        ∨ (a.date.year = b.date.year
          ∧ (a.date.month < b.date.month
            ∨ (a.date.month = b.date.month
              ∧ (a.date.day < b.date.day
                ∨ (a.date.day = b.date.day ∧ a.usecs < b.usecs)))))) := by
  obtain ⟨⟨ay, am, ad⟩, au⟩ := a
  obtain ⟨⟨cy, cm, cd⟩, cu⟩ := b
  simp only [dtLtB, dateLtB, Bool.or_eq_true, Bool.and_eq_true, decide_eq_true_eq,
    Date.mk.injEq]
  tauto

theorem capD_le_of_guard {cursor : Date} {now : DateTime}
    (h : dtLtB { date := cursor, usecs := 0 } now = true) :
    capD cursor ≤ capD now.date := by
  rw [dtLtB_eq_true_iff] at h
  simp only at h
  simp only [capD]
  omega

theorem capD_lt_addMonth (d : Date) : capD d < capD (addMonth d) := by
  simp only [capD, addMonth]
  split
  · simp only
    omega
  · simp only
    omega

theorem processMonths_of_guard_false (fetchA : String → String → Option JVal)
    (now : DateTime) (corridor : String) (fuel : Nat) (cursor : Date)
    (acc : List Batch) (st : List CRec) (calls : List FetchCall)
    (h : dtLtB { date := cursor, usecs := 0 } now = false) :
    processMonths fetchA now corridor fuel cursor acc st calls = some (acc, st, calls) := by
  cases fuel with
  | zero => rw [processMonths, h]; simp
  | succ fuel => rw [processMonths, h]; simp

theorem processMonths_some (fetchA : String → String → Option JVal) (now : DateTime)
    (corridor : String) :
    ∀ fuel cursor acc st calls, monthFuel now cursor ≤ fuel →
      (processMonths fetchA now corridor fuel cursor acc st calls).isSome = true := by
  intro fuel
  induction fuel with
  | zero =>
    intro cursor acc st calls hf
    have hg : dtLtB { date := cursor, usecs := 0 } now = false := by
      cases hg : dtLtB { date := cursor, usecs := 0 } now
      · rfl
      · have hle := capD_le_of_guard hg
        simp only [monthFuel] at hf
        omega
    rw [processMonths_of_guard_false fetchA now corridor 0 cursor acc st calls hg]
    rfl
  | succ fuel ih =>
    intro cursor acc st calls hf
    cases hg : dtLtB { date := cursor, usecs := 0 } now
    · rw [processMonths_of_guard_false fetchA now corridor (fuel + 1) cursor acc st calls hg]
      rfl
    · have hlt := capD_lt_addMonth cursor
      have hle := capD_le_of_guard hg
      have hf2 : monthFuel now (addMonth cursor) ≤ fuel := by
        simp only [monthFuel] at hf ⊢
        omega
      rw [processMonths, hg]
      simp only [if_true]
      cases hfa : fetchA corridor (formatDate cursor) with
      | none => exact ih (addMonth cursor) acc st _ hf2
      | some v =>
        dsimp only
        by_cases hv : v.truthy = true
        · rw [if_pos hv]
          exact ih (addMonth cursor) _ _ _ hf2
        · rw [if_neg hv]
          exact ih (addMonth cursor) acc st _ hf2

theorem capD_addMonthIter (cursor : Date) :
    ∀ n : Nat, capD cursor + n ≤ capD (addMonthIter n cursor) := by
  intro n
  induction n with
  | zero => simp [addMonthIter]
  | succ n ih =>
    have h := capD_lt_addMonth (addMonthIter n cursor)
    simp only [addMonthIter]
    omega

/-- C8: the per-corridor polling loop terminates for every corridor and every
starting cursor: with the fuel bound `monthFuel` (one unit per remaining
month) the loop never exhausts its fuel, and iterating the one-month cursor
advance eventually makes the guard `monthly_datetime_obj < current_date`
false, because the cursor strictly advances while `now` is a fixed
snapshot. -/
theorem C8_loop_terminates (fetchA : String → String → Option JVal) (now : DateTime)
    (corridor : String) (cursor : Date) (acc : List Batch) (st : List CRec)
    (calls : List FetchCall) :
    (processMonths fetchA now corridor (monthFuel now cursor) cursor acc st calls).isSome = true
    ∧ ∃ n : Nat, dtLtB { date := addMonthIter n cursor, usecs := 0 } now = false := by
  constructor
  · exact processMonths_some fetchA now corridor (monthFuel now cursor) cursor acc st calls
      (Nat.le_refl _)
  · refine ⟨capD now.date + 1, ?_⟩
    cases hg : dtLtB { date := addMonthIter (capD now.date + 1) cursor, usecs := 0 } now
    · rfl
    · have h1 := capD_le_of_guard hg
      have h2 := capD_addMonthIter cursor (capD now.date + 1)
      omega

/-- C6: one guarded iteration of the polling loop.  When the fetch yields the
sentinel `none` or a falsy payload, nothing is appended and the checkpoint is
untouched, but the loop still continues at `cursor + 1 month` (first two
conjuncts); when it yields truthy data, the batch is appended and the
checkpoint for the corridor is set to the fetched date (third conjunct); and
a corridor whose inner loop finishes hands its accumulators to the remaining
corridors, whatever happened inside (fourth conjunct). -/
theorem C6_fetch_result_isolation (fetchA : String → String → Option JVal) (now : DateTime)
    (corridor : String) (fuel : Nat) (cursor : Date) (acc : List Batch) (st : List CRec)
    (calls : List FetchCall) (hguard : dtLtB { date := cursor, usecs := 0 } now = true) :
    (fetchA corridor (formatDate cursor) = none →
      processMonths fetchA now corridor (fuel + 1) cursor acc st calls
        = processMonths fetchA now corridor fuel (addMonth cursor) acc st
            (calls ++ [{ corridor := corridor, from_date := formatDate cursor }]))
    ∧ (∀ v, fetchA corridor (formatDate cursor) = some v → v.truthy = false →
      processMonths fetchA now corridor (fuel + 1) cursor acc st calls
        = processMonths fetchA now corridor fuel (addMonth cursor) acc st
            (calls ++ [{ corridor := corridor, from_date := formatDate cursor }]))
    ∧ (∀ v, fetchA corridor (formatDate cursor) = some v → v.truthy = true →
      processMonths fetchA now corridor (fuel + 1) cursor acc st calls
        = processMonths fetchA now corridor fuel (addMonth cursor)
            (acc ++ [{ corridor := corridor, from_date := formatDate cursor, response := v }])
            (set_last_successful_monthly_date st corridor (formatDate cursor))
            (calls ++ [{ corridor := corridor, from_date := formatDate cursor }]))
    ∧ (∀ defaultValue rest acc2 st2 calls2 cursor2 out,
        parseDate (get_last_successful_monthly_date st2 defaultValue corridor) = some cursor2 →
        processMonths fetchA now corridor (monthFuel now cursor2) cursor2 acc2 st2 calls2
          = some out →
        processCorridors fetchA now defaultValue (corridor :: rest) acc2 st2 calls2
          = processCorridors fetchA now defaultValue rest out.1 out.2.1 out.2.2) := by
  refine ⟨?_, ?_, ?_, ?_⟩
  · intro hfa
    rw [processMonths, hguard, hfa]
    simp
  · intro v hfa hv
    rw [processMonths, hguard, hfa]
    simp [hv]
  · intro v hfa hv
    rw [processMonths, hguard, hfa]
    simp [hv]
  · intro defaultValue rest acc2 st2 calls2 cursor2 out hparse hpm
    obtain ⟨a2, s2, c2⟩ := out
    rw [processCorridors, hparse]
    dsimp only
    rw [hpm]

theorem C6_witness :
    dtLtB { date := { year := 2020, month := 1, day := 1 }, usecs := 0 } now320 = true
    ∧ fetchNone "DK1-DE" (formatDate { year := 2020, month := 1, day := 1 }) = none
    ∧ processMonths fetchNone now320 "DK1-DE" 1 { year := 2020, month := 1, day := 1 } [] [] []
        = processMonths fetchNone now320 "DK1-DE" 0 (addMonth { year := 2020, month := 1, day := 1 })
            [] [] [{ corridor := "DK1-DE", from_date := formatDate { year := 2020, month := 1, day := 1 } }] :=
  ⟨by decide, rfl,
   (C6_fetch_result_isolation fetchNone now320 "DK1-DE" 0 { year := 2020, month := 1, day := 1 }
      [] [] [] (by decide)).1 rfl⟩

theorem dtLtB_irrefl (a : DateTime) : dtLtB a a = false := by
  obtain ⟨⟨y, m, d⟩, u⟩ := a
  simp [dtLtB, dateLtB]

theorem guard_true_same_date (cursor : Date) (u : Nat) (hu : 0 < u) :
    dtLtB { date := cursor, usecs := 0 } { date := cursor, usecs := u } = true := by
  simp [dtLtB, hu]

theorem guard_false_after_addMonth (cursor : Date) (u : Nat) :
    dtLtB { date := addMonth cursor, usecs := 0 } { date := cursor, usecs := u } = false := by
  obtain ⟨y, m, d⟩ := cursor
  by_cases h12 : 12 ≤ m <;>
    simp [dtLtB, dateLtB, addMonth, h12, Date.mk.injEq]

/-- C1 amended: the loop guard compares the cursor, as a datetime at
midnight, with the full `utcnow()` snapshot (taken once before the loop), not
date-only.  When the starting cursor equals the snapshot's date, zero fetches
are issued only if the snapshot's time-of-day is exactly midnight; when the
snapshot's time-of-day is past midnight, exactly one fetch is issued for that
corridor, at the cursor itself. -/
theorem C1_guard_full_datetime (fetchA : String → String → Option JVal) (now : DateTime)
    (corridor : String) (cursor : Date) (acc : List Batch) (st : List CRec)
    (calls : List FetchCall) (fuel : Nat) (hdate : now.date = cursor) :
    (now.usecs = 0 →
      processMonths fetchA now corridor fuel cursor acc st calls = some (acc, st, calls))
    ∧ (0 < now.usecs →
      ∃ acc2 st2, processMonths fetchA now corridor (fuel + 1) cursor acc st calls
        = some (acc2, st2,
            calls ++ [{ corridor := corridor, from_date := formatDate cursor }])) := by
  obtain ⟨nd, nu⟩ := now
  dsimp only at hdate
  subst nd
  constructor
  · intro hu
    dsimp only at hu
    subst hu
    exact processMonths_of_guard_false fetchA { date := cursor, usecs := 0 } corridor fuel
      cursor acc st calls (dtLtB_irrefl { date := cursor, usecs := 0 })
  · intro hu
    dsimp only at hu
    rw [processMonths, guard_true_same_date cursor nu hu]
    cases hfa : fetchA corridor (formatDate cursor) with
    | none =>
      refine ⟨acc, st, ?_⟩
      have hstep := processMonths_of_guard_false fetchA { date := cursor, usecs := nu } corridor
        fuel (addMonth cursor) acc st
        (calls ++ [{ corridor := corridor, from_date := formatDate cursor }])
        (guard_false_after_addMonth cursor nu)
      simpa using hstep
    | some v =>
      by_cases hv : v.truthy = true
      · refine ⟨acc ++ [{ corridor := corridor, from_date := formatDate cursor, response := v }],
          set_last_successful_monthly_date st corridor (formatDate cursor), ?_⟩
        have hstep := processMonths_of_guard_false fetchA { date := cursor, usecs := nu } corridor
          fuel (addMonth cursor)
          (acc ++ [{ corridor := corridor, from_date := formatDate cursor, response := v }])
          (set_last_successful_monthly_date st corridor (formatDate cursor))
          (calls ++ [{ corridor := corridor, from_date := formatDate cursor }])
          (guard_false_after_addMonth cursor nu)
        simpa [hv] using hstep
      · refine ⟨acc, st, ?_⟩
        have hstep := processMonths_of_guard_false fetchA { date := cursor, usecs := nu } corridor
          fuel (addMonth cursor) acc st
          (calls ++ [{ corridor := corridor, from_date := formatDate cursor }])
          (guard_false_after_addMonth cursor nu)
        simpa [hv] using hstep

theorem C1_witness :
    nowNoon315.date = { year := 2020, month := 3, day := 15 }
    ∧ 0 < nowNoon315.usecs
    ∧ ∃ acc2 st2,
        processMonths fetchData nowNoon315 "DK1-DE" 1 { year := 2020, month := 3, day := 15 }
            [] [] []
          = some (acc2, st2,
              [] ++ [{ corridor := "DK1-DE", from_date := formatDate { year := 2020, month := 3, day := 15 } }]) :=
  ⟨rfl, by decide,
   (C1_guard_full_datetime fetchData nowNoon315 "DK1-DE" { year := 2020, month := 3, day := 15 }
      [] [] [] 0 rfl).2 (by decide)⟩

/-- C1 counterexample: the checkpoint store returns `"2020-03-15"`, the very
date of the run-start snapshot (taken at noon), yet one auctions fetch is
issued for the corridor — the guard is not a date-only comparison. -/
theorem C1_counterexample :
    (processCorridors fetchData nowNoon315 ("2020-01-01") ["DK1-DE"] []
        [{ corridor := "DK1-DE", lastDate := "2020-03-15" }] []).map (fun out => out.2.2)
      = some [{ corridor := "DK1-DE", from_date := "2020-03-15" }]
    ∧ (processCorridors fetchData nowNoon315 ("2020-01-01") ["DK1-DE"] []
        [{ corridor := "DK1-DE", lastDate := "2020-03-15" }] []).map (fun out => out.2.2)
      ≠ some [] := by
  exact ⟨by decide, by decide⟩

/-- C2 counterexample: in the 2020-01-01 / 2020-03-15 scenario the loop
issues three fetches (2020-01-01, 2020-02-01 and 2020-03-01), not the claimed
two: `2020-03-01 < 2020-03-15` keeps the loop going one more iteration. -/
theorem C2_counterexample :
    (processCorridors fetchData now320 ("2020-01-01")
        (filter_corridors ["DK1-DE", "XX-YY"] ["DK"]) [] [] []).map (fun out => out.2.2)
      = some [{ corridor := "DK1-DE", from_date := "2020-01-01" },
              { corridor := "DK1-DE", from_date := "2020-02-01" },
              { corridor := "DK1-DE", from_date := "2020-03-01" }]
    ∧ (processCorridors fetchData now320 ("2020-01-01")
        (filter_corridors ["DK1-DE", "XX-YY"] ["DK"]) [] [] []).map (fun out => out.2.2)
      ≠ some [{ corridor := "DK1-DE", from_date := "2020-01-01" },
              { corridor := "DK1-DE", from_date := "2020-02-01" }] := by
  exact ⟨by decide, by decide⟩

/-- C2 amended: with corridor universe `["DK1-DE", "XX-YY"]` and filter
`["DK"]` only `"DK1-DE"` is processed; starting from the default checkpoint
`2020-01-01` under the run-start snapshot 2020-03-15, the loop issues fetches
for `2020-01-01`, `2020-02-01` and `2020-03-01`; when all issued fetches
succeed, the final checkpoint recorded for `"DK1-DE"` is `2020-03-01`. -/
theorem C2_scenario_three_fetches :
    filter_corridors ["DK1-DE", "XX-YY"] ["DK"] = ["DK1-DE"]
    ∧ processCorridors fetchData now320 ("2020-01-01")
        (filter_corridors ["DK1-DE", "XX-YY"] ["DK"]) [] [] []
      = some ([{ corridor := "DK1-DE", from_date := "2020-01-01", response := JVal.str ("data") },
               { corridor := "DK1-DE", from_date := "2020-02-01", response := JVal.str ("data") },
               { corridor := "DK1-DE", from_date := "2020-03-01", response := JVal.str ("data") }],
              [{ corridor := "DK1-DE", lastDate := "2020-03-01" }],
              [{ corridor := "DK1-DE", from_date := "2020-01-01" },
               { corridor := "DK1-DE", from_date := "2020-02-01" },
               { corridor := "DK1-DE", from_date := "2020-03-01" }])
    ∧ get_last_successful_monthly_date [{ corridor := "DK1-DE", lastDate := "2020-03-01" }]
        ("2020-01-01") "DK1-DE" = "2020-03-01" := by
  refine ⟨by decide, by rfl, by decide⟩

/-- C3: the cursor advance adds exactly one calendar month with
calendar-correct rollover: the year rolls over after December; the
day-of-month is kept when it exists in the target month and clamped to that
month's last valid day otherwise; validity is preserved; and the concrete
cases hold (2021-01-31 to 2021-02-28, 2020-01-31 to 2020-02-29 in the leap
year, 2021-01-15 to 2021-02-15). -/
theorem C3_add_one_month (d : Date) (hv : dateValid d = true) :
    ((addMonth d).year = if d.month = 12 then d.year + 1 else d.year)
    ∧ ((addMonth d).month = if d.month = 12 then 1 else d.month + 1)
    ∧ (d.day ≤ daysInMonth (addMonth d).year (addMonth d).month → (addMonth d).day = d.day)
    ∧ (daysInMonth (addMonth d).year (addMonth d).month < d.day →
        (addMonth d).day = daysInMonth (addMonth d).year (addMonth d).month)
    ∧ dateValid (addMonth d) = true
    ∧ addMonth { year := 2021, month := 1, day := 31 } = { year := 2021, month := 2, day := 28 }
    ∧ addMonth { year := 2020, month := 1, day := 31 } = { year := 2020, month := 2, day := 29 }
    ∧ addMonth { year := 2021, month := 1, day := 15 } = { year := 2021, month := 2, day := 15 } := by
  simp only [dateValid, Bool.and_eq_true, decide_eq_true_eq] at hv
  obtain ⟨⟨⟨hm1, hm2⟩, hd1⟩, hd2⟩ := hv
  by_cases h12 : 12 ≤ d.month
  · have hm : d.month = 12 := by omega
    refine ⟨?_, ?_, ?_, ?_, ?_, by decide, by decide, by decide⟩
    · simp [addMonth, h12, hm]
    · simp [addMonth, h12, hm]
    · intro h
      simp only [addMonth, if_pos h12] at h ⊢
      omega
    · intro h
      simp only [addMonth, if_pos h12] at h ⊢
      omega
    · have hone := one_le_daysInMonth (d.year + 1) 1
      simp only [addMonth, if_pos h12, dateValid, Bool.and_eq_true, decide_eq_true_eq]
      omega
  · have hm : ¬(d.month = 12) := by omega
    refine ⟨?_, ?_, ?_, ?_, ?_, by decide, by decide, by decide⟩
    · simp [addMonth, h12, hm]
    · simp [addMonth, h12, hm]
    · intro h
      simp only [addMonth, if_neg h12] at h ⊢
      omega
    · intro h
      simp only [addMonth, if_neg h12] at h ⊢
      omega
    · have hone := one_le_daysInMonth d.year (d.month + 1)
      simp only [addMonth, if_neg h12, dateValid, Bool.and_eq_true, decide_eq_true_eq]
      omega

theorem C3_witness :
    dateValid { year := 2021, month := 1, day := 31 } = true
    ∧ addMonth { year := 2021, month := 1, day := 31 } = { year := 2021, month := 2, day := 28 } :=
  ⟨by decide,
   (C3_add_one_month { year := 2021, month := 1, day := 31 } (by decide)).2.2.2.2.2.1⟩

theorem keyFree_iff (c : String) (st : List CRec) :
    keyFree c (st.map CRec.corridor) = true ↔ ∀ r ∈ st, r.corridor ≠ c := by
  induction st with
  | nil => simp [keyFree]
  | cons r rest ih => simp [keyFree, ih]

theorem set_map_of_present (st : List CRec) (c d : String) (h : ∃ r ∈ st, r.corridor = c) :
    (set_last_successful_monthly_date st c d).map CRec.corridor = st.map CRec.corridor := by
  induction st with
  | nil => simp at h
  | cons item rest ih =>
    by_cases hi : item.corridor = c
    · simp [set_last_successful_monthly_date, hi]
    · have h2 : ∃ r ∈ rest, r.corridor = c := by
        rcases h with ⟨r, hr, hc⟩
        rcases List.mem_cons.mp hr with rfl | hr2
        · exact absurd hc hi
        · exact ⟨r, hr2, hc⟩
      simp [set_last_successful_monthly_date, hi, ih h2]

theorem set_append_of_absent (st : List CRec) (c d : String) (h : ∀ r ∈ st, r.corridor ≠ c) :
    set_last_successful_monthly_date st c d = st ++ [{ corridor := c, lastDate := d }] := by
  induction st with
  | nil => simp [set_last_successful_monthly_date]
  | cons item rest ih =>
    have hi : item.corridor ≠ c := h item (by simp)
    simp only [set_last_successful_monthly_date]
    rw [if_neg (by simp [hi])]
    simp [ih (fun r hr => h r (by simp [hr]))]

theorem keyFree_append (k c : String) (l : List String) :
    keyFree k (l ++ [c]) = (keyFree k l && !(c == k)) := by
  induction l with
  | nil => simp [keyFree]
  | cons a as ih => simp [keyFree, ih, Bool.and_assoc]

theorem uniqueKeys_append_one (c : String) (l : List String) (hu : uniqueKeys l = true)
    (hf : keyFree c l = true) : uniqueKeys (l ++ [c]) = true := by
  induction l with
  | nil => simp [uniqueKeys, keyFree]
  | cons k ks ih =>
    simp only [uniqueKeys, keyFree, Bool.and_eq_true] at hu hf
    rw [List.cons_append, uniqueKeys, keyFree_append, Bool.and_eq_true, Bool.and_eq_true]
    have hkc : ¬(k = c) := by simpa using hf.1
    have hck : ¬(c = k) := fun hh => hkc hh.symm
    exact ⟨⟨hu.1, by simpa using hck⟩, ih hu.2 hf.2⟩

/-- C9: under the at-most-one-record-per-corridor invariant,
`set_last_successful_monthly_date` preserves the invariant and
`get_last_successful_monthly_date` does not touch the list; `set` rewrites in
place (preserving the corridor key sequence) when the corridor is present and
appends exactly one new record when it is absent, so records are never
deleted. -/
theorem C9_unique_per_corridor (st : List CRec) (c d defv : String)
    (h : uniqueCorridors st = true) :
    uniqueCorridors (set_last_successful_monthly_date st c d) = true
    ∧ (getFullLSMD st defv c).2 = st
    ∧ ((∃ r ∈ st, r.corridor = c) →
        (set_last_successful_monthly_date st c d).map CRec.corridor = st.map CRec.corridor)
    ∧ ((∀ r ∈ st, r.corridor ≠ c) →
        set_last_successful_monthly_date st c d = st ++ [{ corridor := c, lastDate := d }]) := by
  refine ⟨?_, rfl, set_map_of_present st c d, set_append_of_absent st c d⟩
  by_cases hp : ∃ r ∈ st, r.corridor = c
  · unfold uniqueCorridors
    rw [set_map_of_present st c d hp]
    exact h
  · push_neg at hp
    rw [set_append_of_absent st c d hp]
    unfold uniqueCorridors
    rw [List.map_append]
    simp only [List.map_cons, List.map_nil]
    exact uniqueKeys_append_one c (st.map CRec.corridor) h ((keyFree_iff c st).mpr hp)

theorem C9_witness :
    uniqueCorridors [{ corridor := "DK1-DE", lastDate := "2020-01-01" },
                     { corridor := "NO2-DE", lastDate := "2020-02-01" }] = true
    ∧ uniqueCorridors (set_last_successful_monthly_date
        [{ corridor := "DK1-DE", lastDate := "2020-01-01" },
         { corridor := "NO2-DE", lastDate := "2020-02-01" }] "DK1-DE" "2020-03-01") = true :=
  ⟨by decide,
   (C9_unique_per_corridor
      [{ corridor := "DK1-DE", lastDate := "2020-01-01" },
       { corridor := "NO2-DE", lastDate := "2020-02-01" }] "DK1-DE" "2020-03-01" "2019-01-01"
      (by decide)).1⟩
